import Mathlib

/-!
Shallow embedding of the PandorasAutomation protocol client: the frame
codec (`buildHeader`, `checksum`, `sendMessage`), the Control Connection
state machine (`PBState`, `handleData`, the status-poll and
sequence-discovery queues) and the Timecode Connection decoder
(`seqHandleData`), together with an event-level execution model (`run`)
used to state trace properties about outstanding requests.

Buffers are modelled as `List Nat`; every byte read masks the cell with
`% 256`, matching the fact that Node `Buffer` cells are octets.  Callback
invocations and socket writes are modelled as an explicit output trace
(`TraceItem`); a thrown-and-caught decode exception surfaces as the
`cbError` item (the consumer's `onError` handler), never as state loss,
mirroring the `try`/`catch` wrapper in the handlers.
-/

namespace PB

/-- ASCII bytes of the magic marker "PBAU". -/
def pbauMagic : List Nat := [80, 66, 65, 85]

/-- Byte at index `i` of a buffer (0 when out of range, masked to an octet). -/
def byteAt (d : List Nat) (i : Nat) : Nat := d.getD i 0 % 256

/-- `Buffer.readInt32BE(off)`: big-endian 32-bit signed read.  Total; the
callers either guard the bounds or wrap the read in the catch modelled in
the handlers, and all out-of-bounds uses are routed through explicit
length tests below. -/
def readInt32BEt (d : List Nat) (off : Nat) : Int :=
  if byteAt d off * 16777216 + byteAt d (off+1) * 65536 + byteAt d (off+2) * 256 + byteAt d (off+3) < 2147483648
  then ((byteAt d off * 16777216 + byteAt d (off+1) * 65536 + byteAt d (off+2) * 256 + byteAt d (off+3) : Nat) : Int)
  else ((byteAt d off * 16777216 + byteAt d (off+1) * 65536 + byteAt d (off+2) * 256 + byteAt d (off+3) : Nat) : Int) - 4294967296

/-- `Buffer.readInt32LE(off)`: little-endian 32-bit signed read. -/
def readInt32LEt (d : List Nat) (off : Nat) : Int :=
  if byteAt d (off+3) * 16777216 + byteAt d (off+2) * 65536 + byteAt d (off+1) * 256 + byteAt d off < 2147483648
  then ((byteAt d (off+3) * 16777216 + byteAt d (off+2) * 65536 + byteAt d (off+1) * 256 + byteAt d off : Nat) : Int)
  else ((byteAt d (off+3) * 16777216 + byteAt d (off+2) * 65536 + byteAt d (off+1) * 256 + byteAt d off : Nat) : Int) - 4294967296

/-- `Buffer.readInt16BE(off)`: big-endian 16-bit signed read. -/
def readInt16BEt (d : List Nat) (off : Nat) : Int :=
  if byteAt d off * 256 + byteAt d (off+1) < 32768
  then ((byteAt d off * 256 + byteAt d (off+1) : Nat) : Int)
  else ((byteAt d off * 256 + byteAt d (off+1) : Nat) : Int) - 65536

/-- `writeInt`: 4-byte big-endian two's-complement encoding (`writeInt32BE`). -/
def writeInt (n : Int) : List Nat :=
  [(n % 4294967296).toNat / 16777216 % 256,
   (n % 4294967296).toNat / 65536 % 256,
   (n % 4294967296).toNat / 256 % 256,
   (n % 4294967296).toNat % 256]

/-- `writeShort`: 2-byte big-endian encoding (`writeUInt16BE`; the mask keeps
the model total, all in-code arguments are already in range). -/
def writeShort (n : Int) : List Nat :=
  [(n % 65536).toNat / 256, (n % 65536).toNat % 256]

/-- `buildHeader(bodyLen)`: pre-header byte `1`, 4 domain bytes (big-endian),
2 length bytes computed as `floor(len/256)` and `len % 256`, then 5 reserved
zero bytes.  `Buffer.from` masks each cell to an octet. -/
def buildHeader (domain : Int) (bodyLen : Nat) : List Nat :=
  [1] ++ writeInt domain ++ [bodyLen / 256 % 256, bodyLen % 256] ++ [0, 0, 0, 0, 0]

/-- `checksum(buf)`: running sum of the bytes, reduced `% 256` at each step. -/
def checksum (buf : List Nat) : Nat :=
  buf.foldl (fun sum b => (sum + b) % 256) 0

/-- The complete outbound frame built by `send`: magic, header, the checksum
of the header, then the body (2-byte command identifier followed by the
concatenated payload parts). -/
def sendMessage (domain commandId : Int) (parts : List (List Nat)) : List Nat :=
  pbauMagic
    ++ buildHeader domain (writeShort commandId ++ parts.flatten).length
    ++ [checksum (buildHeader domain (writeShort commandId ++ parts.flatten).length)]
    ++ (writeShort commandId ++ parts.flatten)

/- Modelled from the spec: the repository imports `CommandId` from
`./constants.js`, which is not among the provided sources.  Spec section 6
lists the command set and fixes only the error sentinel `0xFFFF` / `-1`;
the numeric values below are arbitrary distinct 16-bit stand-ins for the
unknown real ones.  No claim depends on the particular numbers, only on
their being pairwise distinct, non-negative and different from the
sentinel. -/
namespace CommandId

def SetSeqTransportMode : Int := 1
def GetSeqTransportMode : Int := 2
def GetSeqTime : Int := 3
def GetRemainingTimeUntilNextCue : Int := 4
def MoveSeqToCue : Int := 5
def MoveSeqToLastNextCue : Int := 6
def IgnoreNextCue : Int := 7
def ApplyView : Int := 8
def SaveProject : Int := 9
def ToggleFullscreen : Int := 10
def SetSiteIp : Int := 11
def ClearAllActive : Int := 12
def StoreActive : Int := 13
def StoreActiveToBeginning : Int := 14
def ResetAll : Int := 15
def SetSeqSmpteMode : Int := 16
def GetSequenceIds : Int := 17
def GetSequenceName : Int := 18
def SetSeqSelection : Int := 19

end CommandId

/-- Transport states, decoded from a 4-byte big-endian integer
(1 is Play, 2 is Stop, 3 is Pause, anything else Unknown). -/
inductive TransportState where
  | Play
  | Pause
  | Stop
  | Unknown
deriving DecidableEq

/-- One observable output of the client: a socket write (`sent`, recording
the command identifier and the payload parts handed to `send`), a
reply-received marker added by the run wrapper (`got`), or a consumer
callback invocation.  `cbError` stands for the `onError` handler, which
also receives exceptions caught inside `handleData`. -/
inductive TraceItem where
  | sent (cmd : Int) (parts : List (List Nat))
  | got (cmd : Int)
  | cbTransport (st : TransportState)
  | cbSequenceTransport (seqId : Int) (st : TransportState)
  | cbNextCueTime (h m s f : Int)
  | cbSequencesUpdated (seqs : List (Int × String))
  | cbSequenceTime (h m s f : Int)
  | cbError
deriving DecidableEq

/-- Insert-or-overwrite on an association list, preserving insertion order:
the behaviour of `Map.prototype.set`. -/
def mapSet : List (Int × String) → Int → String → List (Int × String)
  | [], k, v => [(k, v)]
  | (k2, v2) :: t, k, v => if k2 = k then (k, v) :: t else (k2, v2) :: mapSet t k v

/-- Lookup on an association list: the behaviour of `Map.prototype.get`. -/
def mapGet : List (Int × String) → Int → Option String
  | [], _ => none
  | (k2, v2) :: t, k => if k2 = k then some v2 else mapGet t k

/-- Insert-or-overwrite for the per-sequence transport-state map. -/
def mapSetTS : List (Int × TransportState) → Int → TransportState → List (Int × TransportState)
  | [], k, v => [(k, v)]
  | (k2, v2) :: t, k, v => if k2 = k then (k, v) :: t else (k2, v2) :: mapSetTS t k v

/-- `this.pendingSequenceNames.get(id) || "Sequence " + id`: JavaScript `||`
falls back both when the key is absent and when the stored name is the
falsy empty string. -/
def jsGetName (m : List (Int × String)) (id : Int) : String :=
  match mapGet m id with
  | some n => if n = "" then "Sequence " ++ toString id else n
  | none => "Sequence " ++ toString id

/-- The mutable fields of `PBClient` that the protocol logic reads or
writes.  `socket` is true when a socket object is present; timer handles
are represented by the event model instead of state.  The per-sequence
`SequenceConnection` objects are independent connections and are modelled
separately (`seqHandleData`). -/
structure PBState where
  domain : Int
  socket : Bool
  connecting : Bool
  pendingSequenceIds : List Int
  pendingSequenceNames : List (Int × String)
  sequenceNameQueue : List Int
  currentSequenceNameId : Option Int
  pollSequenceIds : List Int
  statusRequestQueue : List Int
  currentStatusRequestId : Option Int
  statusRequestPending : Bool
  sequenceStates : List (Int × TransportState)
deriving DecidableEq

/-- `PBClient.send`: a silent no-op when no socket is present or a connect
is in progress; otherwise hands the encoded frame to the transport
(recorded as a `sent` item; `sendMessage` describes the bytes written). -/
def send (s : PBState) (commandId : Int) (parts : List (List Nat)) : PBState × List TraceItem :=
  if s.socket = false ∨ s.connecting = true then (s, [])
  else (s, [TraceItem.sent commandId parts])

/-- `PBClient.fetchSequenceName`: records the outstanding-name cursor, then
sends the name request. -/
def fetchSequenceName (s : PBState) (seqId : Int) : PBState × List TraceItem :=
  send { s with currentSequenceNameId := some seqId } CommandId.GetSequenceName [writeInt seqId]

/-- `PBClient.processSequenceNameQueue`: dequeue the head of the name queue
and request its name; nothing when the queue is empty. -/
def processSequenceNameQueue (s : PBState) : PBState × List TraceItem :=
  match s.sequenceNameQueue with
  | [] => (s, [])
  | nextId :: rest => fetchSequenceName { s with sequenceNameQueue := rest } nextId

/-- `PBClient.processStatusRequestQueue`: refuses to start a new request
while one is pending; otherwise dequeues the next watched ID (clearing the
cursor when the queue is empty) and sends its transport-mode request. -/
def processStatusRequestQueue (s : PBState) : PBState × List TraceItem :=
  if s.statusRequestPending = true then (s, [])
  else
    match s.statusRequestQueue with
    | [] => ({ s with currentStatusRequestId := none }, [])
    | nextId :: rest =>
        send { s with statusRequestQueue := rest,
                      currentStatusRequestId := some nextId,
                      statusRequestPending := true }
          CommandId.GetSeqTransportMode [writeInt nextId]

/-- `PBClient.refreshSequences`: clears the accumulated ID list, the
accumulated names and the name queue (and nothing else), then sends the
"get sequence IDs" command. -/
def refreshSequences (s : PBState) : PBState × List TraceItem :=
  send { s with pendingSequenceIds := [],
                pendingSequenceNames := [],
                sequenceNameQueue := [] }
    CommandId.GetSequenceIds []

/-- The body of the 200 ms status-poll interval: refill the status queue
from the watch set only when the queue is empty and the watch set is
non-empty, then drain. -/
def tick (s : PBState) : PBState × List TraceItem :=
  if s.statusRequestQueue = [] ∧ s.pollSequenceIds ≠ [] then
    processStatusRequestQueue { s with statusRequestQueue := s.pollSequenceIds }
  else (s, [])

/-- `PBClient.updateSequenceState`: record the sequence's transport state
(the push into the matching `SequenceConnection` is connection-local and
not part of this state). -/
def updateSequenceState (s : PBState) (seqId : Int) (st : TransportState) : PBState :=
  { s with sequenceStates := mapSetTS s.sequenceStates seqId st }

/-- The `GetSeqTransportMode` reply branch: clear the pending flag first;
with at least 23 bytes decode the state integer, attribute the reply to
`currentStatusRequestId` (falling back to the global transport callback
when no status request is tracked) and advance the status queue. -/
def handleTransportMode (s : PBState) (d : List Nat) : PBState × List TraceItem :=
  if 23 ≤ d.length then
    match ({ s with statusRequestPending := false } : PBState).currentStatusRequestId with
    | some reqId =>
        let st : TransportState :=
          if readInt32BEt d 19 = 1 then TransportState.Play
          else if readInt32BEt d 19 = 2 then TransportState.Stop
          else if readInt32BEt d 19 = 3 then TransportState.Pause
          else TransportState.Unknown
        let p := processStatusRequestQueue
          (updateSequenceState { s with statusRequestPending := false } reqId st)
        (p.1, TraceItem.cbSequenceTransport reqId st :: p.2)
    | none =>
        ({ s with statusRequestPending := false },
         [TraceItem.cbTransport
            (if readInt32BEt d 19 = 1 then TransportState.Play
             else if readInt32BEt d 19 = 2 then TransportState.Stop
             else if readInt32BEt d 19 = 3 then TransportState.Pause
             else TransportState.Unknown)])
  else ({ s with statusRequestPending := false }, [])

/-- The `GetRemainingTimeUntilNextCue` reply branch: four unguarded 4-byte
big-endian reads; a buffer shorter than 35 bytes makes the first
out-of-bounds read throw before any state change, which the catch turns
into an `onError` invocation. -/
def handleRemaining (s : PBState) (d : List Nat) : PBState × List TraceItem :=
  if 35 ≤ d.length then
    (s, [TraceItem.cbNextCueTime (readInt32BEt d 19) (readInt32BEt d 23)
           (readInt32BEt d 27) (readInt32BEt d 31)])
  else (s, [TraceItem.cbError])

/-- The ID-reading loop of the `GetSequenceIds` branch: up to `count` IDs,
read as 4-byte little-endian integers, stopping as soon as a full ID no
longer fits in the buffer. -/
def parseIdsGo (d : List Nat) : Nat → Nat → List Int
  | 0, _ => []
  | n + 1, off =>
      if off + 4 ≤ d.length then readInt32LEt d off :: parseIdsGo d n (off + 4) else []

/-- The state-mutation part of the `GetSequenceIds` branch: store the parsed
IDs, seed the name queue with a copy of them, clear the accumulated names.
The count is the big-endian integer at offset 19; a 4-byte unused field is
skipped and IDs start at offset 27. -/
def seedSequenceIds (s : PBState) (d : List Nat) : PBState :=
  { s with pendingSequenceIds := parseIdsGo d (readInt32BEt d 19).toNat 27,
           sequenceNameQueue := parseIdsGo d (readInt32BEt d 19).toNat 27,
           pendingSequenceNames := [] }

/-- The `GetSequenceIds` reply branch: the count read at offset 19 throws on
a sub-23-byte buffer (caught, surfacing as `onError`, before any state
change); otherwise seed the discovery state and start fetching names. -/
def handleSeqIds (s : PBState) (d : List Nat) : PBState × List TraceItem :=
  if 23 ≤ d.length then processSequenceNameQueue (seedSequenceIds s d)
  else (s, [TraceItem.cbError])

/-- The `GetSequenceName` reply branch: ignored when no name request is
tracked; otherwise read the 2-byte length and that many bytes of ASCII
name (stopping at the buffer end), record it against the tracked ID, and
either fire the completion callback (when the recorded-name count equals
the expected-ID count) or fetch the next queued name.  The length read at
offset 19 throws on a sub-21-byte buffer, before any state change. -/
def handleSeqName (s : PBState) (d : List Nat) : PBState × List TraceItem :=
  match s.currentSequenceNameId with
  | none => (s, [])
  | some reqId =>
      if 21 ≤ d.length then
        let name := String.mk ((List.range (min (readInt16BEt d 19).toNat (d.length - 21))).map
          (fun i => Char.ofNat (byteAt d (21 + i))))
        let s2 : PBState := { s with pendingSequenceNames := mapSet s.pendingSequenceNames reqId name,
                                     currentSequenceNameId := none }
        if s2.pendingSequenceNames.length = s2.pendingSequenceIds.length then
          (s2, [TraceItem.cbSequencesUpdated
                  (s2.pendingSequenceIds.map (fun id => (id, jsGetName s2.pendingSequenceNames id)))])
        else processSequenceNameQueue s2
      else (s, [TraceItem.cbError])

/-- First half of the error-sentinel branch (`case 0xFFFF: case -1:`): when
a status request is outstanding, evict its sequence from the watch set and
re-enter the status queue processor. -/
def handleErrorStatusPart (s : PBState) : PBState × List TraceItem :=
  match s.currentStatusRequestId with
  | some invalidId =>
      processStatusRequestQueue
        { s with pollSequenceIds := s.pollSequenceIds.filter (fun id => id ≠ invalidId) }
  | none => (s, [])

/-- Second half of the error-sentinel branch: when a name request is
outstanding, evict its sequence from the expected IDs, clear the cursor
and advance the name queue. -/
def handleErrorNamePart (s : PBState) : PBState × List TraceItem :=
  match s.currentSequenceNameId with
  | some invalidId =>
      processSequenceNameQueue
        { s with pendingSequenceIds := s.pendingSequenceIds.filter (fun id => id ≠ invalidId),
                 currentSequenceNameId := none }
  | none => (s, [])

/-- The error-sentinel branch: the status block runs first, then the name
block on the resulting state, exactly as the two `if` statements execute
in sequence. -/
def handleError (s : PBState) : PBState × List TraceItem :=
  ((handleErrorNamePart (handleErrorStatusPart s).1).1,
   (handleErrorStatusPart s).2 ++ (handleErrorNamePart (handleErrorStatusPart s).1).2)

/-- The command dispatch of `PBClient.handleData`, reached once the three
guards pass: the identifier is the 16-bit big-endian read at offset 17,
compared against each known command; `0xFFFF` is kept from the source
switch even though a signed 16-bit read can only produce `-1`. -/
def dispatchCmd (s : PBState) (d : List Nat) : PBState × List TraceItem :=
  if readInt16BEt d 17 = CommandId.GetSeqTransportMode then handleTransportMode s d
  else if readInt16BEt d 17 = CommandId.GetRemainingTimeUntilNextCue then handleRemaining s d
  else if readInt16BEt d 17 = CommandId.GetSequenceIds then handleSeqIds s d
  else if readInt16BEt d 17 = CommandId.GetSequenceName then handleSeqName s d
  else if readInt16BEt d 17 = 65535 ∨ readInt16BEt d 17 = -1 then handleError s
  else (s, [])

/-- `PBClient.handleData`: silently drop buffers shorter than 19 bytes, with
a wrong magic marker, or with a domain different from the configured one;
otherwise dispatch on the command identifier at offset 17.  The magic test
is `data.toString('ascii', 0, 4) !== 'PBAU'`: Node's `'ascii'` decoding
unsets the high bit of each byte before comparing, so the guard masks each
of the first 4 bytes with `% 128`. -/
def handleData (s : PBState) (d : List Nat) : PBState × List TraceItem :=
  if d.length < 19 then (s, [])
  else if (d.take 4).map (fun b => b % 128) ≠ pbauMagic then (s, [])
  else if readInt32BEt d 5 ≠ s.domain then (s, [])
  else dispatchCmd s d

/-- `SequenceConnection.handleData`: same three guards (including the
high-bit-masking `'ascii'` magic comparison), then only the `GetSeqTime`
reply (with at least 35 bytes) produces the time callback.  The connection
object mutates no state in its data handler. -/
def seqHandleData (domain : Int) (d : List Nat) : List TraceItem :=
  if d.length < 19 then []
  else if (d.take 4).map (fun b => b % 128) ≠ pbauMagic then []
  else if readInt32BEt d 5 ≠ domain then []
  else if readInt16BEt d 17 = CommandId.GetSeqTime ∧ 35 ≤ d.length then
    [TraceItem.cbSequenceTime (readInt32BEt d 19) (readInt32BEt d 23)
       (readInt32BEt d 27) (readInt32BEt d 31)]
  else []

/-- `writeInt` as called from the public command operations:
`Buffer.writeInt32BE` throws `ERR_OUT_OF_RANGE` for arguments outside the
signed 32-bit range, and the throw happens while the payload array is
being built, before `send` consults its socket guard.  `none` is the
thrown path. -/
def writeIntChecked (n : Int) : Option (List Nat) :=
  if -2147483648 ≤ n ∧ n < 2147483648 then some (writeInt n) else none

/-- `writeShort` as called from the public command operations:
`Buffer.writeUInt16BE` throws `ERR_OUT_OF_RANGE` outside `[0, 65535]`. -/
def writeShortChecked (n : Int) : Option (List Nat) :=
  if 0 ≤ n ∧ n < 65536 then some (writeShort n) else none

/-- The signed 32-bit range accepted by `writeInt32BE`. -/
def int32Ok (n : Int) : Prop := -2147483648 ≤ n ∧ n < 2147483648

/-- The public command operations of `PBClient` (spec section 4.2).  Each
builds its payload parts first — `none` when an integer argument makes the
corresponding `Buffer` write throw — and only then calls `send` with its
silent disconnected-guard. -/
def setTransport (s : PBState) (mode sequenceId : Int) : Option (PBState × List TraceItem) :=
  (writeIntChecked sequenceId).bind (fun a =>
    (writeIntChecked mode).map (fun b =>
      send s CommandId.SetSeqTransportMode [a, b]))

def selectSequence (s : PBState) (sequenceId : Int) : Option (PBState × List TraceItem) :=
  (writeIntChecked sequenceId).map (fun a => send s CommandId.SetSeqSelection [a])

def gotoCue (s : PBState) (sequenceId cueId : Int) : Option (PBState × List TraceItem) :=
  (writeIntChecked sequenceId).bind (fun a =>
    (writeIntChecked cueId).map (fun b => send s CommandId.MoveSeqToCue [a, b]))

def nextOrLastCue (s : PBState) (sequenceId : Int) (isNext : Bool) : Option (PBState × List TraceItem) :=
  (writeIntChecked sequenceId).map (fun a =>
    send s CommandId.MoveSeqToLastNextCue [a, [if isNext then 1 else 0]])

def ignoreNextCue (s : PBState) (sequenceId : Int) (doIgnore : Bool) : Option (PBState × List TraceItem) :=
  (writeIntChecked sequenceId).map (fun a =>
    send s CommandId.IgnoreNextCue [a, [if doIgnore then 1 else 0]])

def applyView (s : PBState) (viewId : Int) : Option (PBState × List TraceItem) :=
  (writeIntChecked viewId).map (fun a => send s CommandId.ApplyView [a])

def saveProject (s : PBState) : Option (PBState × List TraceItem) :=
  some (send s CommandId.SaveProject [])

def toggleFullscreen (s : PBState) (siteId : Int) : Option (PBState × List TraceItem) :=
  (writeIntChecked siteId).map (fun a => send s CommandId.ToggleFullscreen [a])

def setSiteIp (s : PBState) (siteId : Int) (ip : String) : Option (PBState × List TraceItem) :=
  (writeIntChecked siteId).bind (fun a =>
    (writeShortChecked ((ip.data.map (fun c => c.toNat % 256)).length : Int)).map (fun b =>
      send s CommandId.SetSiteIp [a, b, ip.data.map (fun c => c.toNat % 256)]))

def clearAllActive (s : PBState) : Option (PBState × List TraceItem) :=
  some (send s CommandId.ClearAllActive [])

def storeActive (s : PBState) (sequenceId : Int) : Option (PBState × List TraceItem) :=
  (writeIntChecked sequenceId).map (fun a => send s CommandId.StoreActive [a])

def storeActiveToBeginning (s : PBState) (sequenceId : Int) : Option (PBState × List TraceItem) :=
  (writeIntChecked sequenceId).map (fun a => send s CommandId.StoreActiveToBeginning [a])

def resetAll (s : PBState) : Option (PBState × List TraceItem) :=
  some (send s CommandId.ResetAll [])

def setSequenceSmpteMode (s : PBState) (sequenceId mode : Int) : Option (PBState × List TraceItem) :=
  (writeIntChecked sequenceId).bind (fun a =>
    (writeIntChecked mode).map (fun b => send s CommandId.SetSeqSmpteMode [a, b]))

/-- `PBClient.setPollSequences`: replaces the watch set (the reconciliation
of per-sequence Timecode Connections is connection management, outside
this state). -/
def setPollSequences (s : PBState) (sequenceIds : List Int) : PBState :=
  { s with pollSequenceIds := sequenceIds }

/-- Events driving a connected Control Connection: a 200 ms timer tick, a
consumer call to `refreshSequences`, or inbound bytes from the socket. -/
inductive PBEvent where
  | tickEv
  | refreshEv
  | recvEv (d : List Nat)
deriving DecidableEq

/-- The three `handleData` guards as one test: at least 19 bytes, the magic
marker under the high-bit-stripping `'ascii'` decoding, and the locally
configured domain. -/
def frameOk (s : PBState) (d : List Nat) : Bool :=
  decide (19 ≤ d.length) && decide ((d.take 4).map (fun b => b % 128) = pbauMagic)
    && decide (readInt32BEt d 5 = s.domain)

/-- One step of the event model.  A received buffer that passes the guards
additionally leaves a `got` marker carrying its command identifier in the
trace, so that trace properties can speak about replies. -/
def step (s : PBState) : PBEvent → PBState × List TraceItem
  | PBEvent.tickEv => tick s
  | PBEvent.refreshEv => refreshSequences s
  | PBEvent.recvEv d =>
      ((handleData s d).1,
       (if frameOk s d then [TraceItem.got (readInt16BEt d 17)] else []) ++ (handleData s d).2)

/-- Run a list of events, concatenating the emitted traces. -/
def run (s : PBState) : List PBEvent → PBState × List TraceItem
  | [] => (s, [])
  | e :: es => ((run (step s e).1 es).1, (step s e).2 ++ (run (step s e).1 es).2)

/-- A status-request send in the trace. -/
def isStatusSend : TraceItem → Bool
  | TraceItem.sent c _ => c == CommandId.GetSeqTransportMode
  | _ => false

/-- A received transport-mode reply: the only frame that clears the
status-pending flag. -/
def isStatusAns : TraceItem → Bool
  | TraceItem.got c => c == CommandId.GetSeqTransportMode
  | _ => false

/-- A name-request send in the trace. -/
def isNameSend : TraceItem → Bool
  | TraceItem.sent c _ => c == CommandId.GetSequenceName
  | _ => false

/-- A received reply that answers a name request: a name reply or the error
sentinel (both clear the name cursor). -/
def isNameAns : TraceItem → Bool
  | TraceItem.got c => c == CommandId.GetSequenceName || c == -1
  | _ => false

/-- The single-outstanding-request automaton: scanning the trace, a send of
the watched kind while one is already unanswered is a violation (`none`);
otherwise the final busy flag is returned. -/
def scanOk (isSend isAns : TraceItem → Bool) : Bool → List TraceItem → Option Bool
  | b, [] => some b
  | b, i :: t =>
      if isSend i then (if b then none else scanOk isSend isAns true t)
      else if isAns i then scanOk isSend isAns false t
      else scanOk isSend isAns b t

/-- The discipline under which the name pipeline is single-outstanding: a
"get sequence IDs" reply is never processed while a name request is
outstanding (equivalently, `refreshSequences` is not called while a
discovery exchange is in flight). -/
def goodCondB (s : PBState) : PBEvent → Bool
  | PBEvent.recvEv d =>
      !(frameOk s d && (readInt16BEt d 17 == CommandId.GetSequenceIds)) || s.currentSequenceNameId.isNone
  | _ => true

/-- `goodCondB` holding before every event of a run. -/
def goodRunB : PBState → List PBEvent → Bool
  | _, [] => true
  | s, e :: es => goodCondB s e && goodRunB (step s e).1 es

/-- A consumer-callback item (as opposed to a socket write or a reply
marker). -/
def isCb : TraceItem → Bool
  | TraceItem.sent _ _ => false
  | TraceItem.got _ => false
  | _ => true

/-- A discovery-completion callback item. -/
def isSequencesUpdated : TraceItem → Bool
  | TraceItem.cbSequencesUpdated _ => true
  | _ => false

/-- The spec-side reading of the `GetSequenceIds` reply payload: a
big-endian count at offset 19, a skipped 4-byte field, then `count`
little-endian 4-byte IDs starting at offset 27, truncated at the buffer
end. -/
def specSequenceIdList (d : List Nat) : List Int :=
  (List.range (min (readInt32BEt d 19).toNat ((d.length - 27) / 4))).map
    (fun i => readInt32LEt d (27 + 4 * i))

/-- A fresh, connected Control Connection on domain 0. -/
def pbInit : PBState :=
  { domain := 0, socket := true, connecting := false,
    pendingSequenceIds := [], pendingSequenceNames := [], sequenceNameQueue := [],
    currentSequenceNameId := none, pollSequenceIds := [], statusRequestQueue := [],
    currentStatusRequestId := none, statusRequestPending := false, sequenceStates := [] }

/-- A server-built reply frame for the scenarios: magic, pre-header, domain,
length bytes, reserved bytes, a (never verified) zero checksum, command
identifier, payload. -/
def mkFrame (domain commandId : Int) (payload : List Nat) : List Nat :=
  pbauMagic ++ [1] ++ writeInt domain ++ [0, 0] ++ [0, 0, 0, 0, 0] ++ [0]
    ++ writeShort commandId ++ payload

/-- 4-byte little-endian encoding, used to build discovery reply fixtures. -/
def writeIntLE (n : Int) : List Nat := (writeInt n).reverse

/-- A `GetSequenceIds` reply for the given ID list on domain 0. -/
def idsReplyFrame (ids : List Int) : List Nat :=
  mkFrame 0 CommandId.GetSequenceIds
    (writeInt (ids.length : Int) ++ [0, 0, 0, 0] ++ (ids.map writeIntLE).flatten)

/-- A `GetSequenceName` reply carrying the given ASCII name on domain 0. -/
def nameReplyFrame (name : String) : List Nat :=
  mkFrame 0 CommandId.GetSequenceName
    (writeShort (name.length : Int) ++ name.data.map (fun c => c.toNat % 256))

/-- An error-sentinel reply on domain 0. -/
def errFrame : List Nat := mkFrame 0 (-1) []

/-- The C3 happy-path scenario: IDs [3, 7, 2], then the three names in
request order. -/
def evsC3a : List PBEvent :=
  [PBEvent.recvEv (idsReplyFrame [3, 7, 2]),
   PBEvent.recvEv (nameReplyFrame "Act 1"),
   PBEvent.recvEv (nameReplyFrame "Act 2"),
   PBEvent.recvEv (nameReplyFrame "Act 3")]

/-- The C3 error scenario: the reply to the name request for ID 7 is the
error sentinel. -/
def evsC3b : List PBEvent :=
  [PBEvent.recvEv (idsReplyFrame [3, 7, 2]),
   PBEvent.recvEv (nameReplyFrame "Act 1"),
   PBEvent.recvEv errFrame,
   PBEvent.recvEv (nameReplyFrame "Act 3")]

/-- The C4 counterexample scenario: two `refreshSequences` calls before the
server answers, then the two (FIFO-ordered) `GetSequenceIds` replies. -/
def evsC4cex : List PBEvent :=
  [PBEvent.refreshEv, PBEvent.refreshEv,
   PBEvent.recvEv (idsReplyFrame [3, 7, 2]),
   PBEvent.recvEv (idsReplyFrame [3, 7, 2])]

/-- The C9 scenario: discovery over IDs [3, 7], one successful name, then
the error sentinel as the reply to the final queued name request. -/
def evsC9 : List PBEvent :=
  [PBEvent.recvEv (idsReplyFrame [3, 7]),
   PBEvent.recvEv (nameReplyFrame "A"),
   PBEvent.recvEv errFrame]

/-- The C2 failing state: a status request for sequence 7 outstanding
(pending flag set), sequence 3 queued next, both being watched. -/
def s2bug : PBState :=
  { pbInit with pollSequenceIds := [7, 3], statusRequestQueue := [3],
                currentStatusRequestId := some 7, statusRequestPending := true }

/-- The C5 counterexample state: a name request for sequence 5 outstanding
when `refreshSequences` is called. -/
def s5cex : PBState :=
  { pbInit with currentSequenceNameId := some 5, pendingSequenceIds := [5],
                pendingSequenceNames := [(5, "Old")], sequenceNameQueue := [9] }

/-- A disconnected client (socket absent). -/
def sDisc : PBState := { pbInit with socket := false }

/-- The C10 state: a status request for sequence 7 outstanding. -/
def s10conc : PBState :=
  { pbInit with statusRequestPending := true, currentStatusRequestId := some 7 }

/-- A well-formed transport-mode reply on domain 0 reporting Play. -/
def frPlay : List Nat := mkFrame 0 CommandId.GetSeqTransportMode (writeInt 1)

/-- The C7 counterexample frame: the transport-mode reply with the first
magic byte replaced by 0xD0, whose low 7 bits are those of the ASCII
letter P.  Its first 4 bytes are not "PBAU", yet the high-bit-stripping
magic comparison accepts it. -/
def hiMagicFrame : List Nat := [208] ++ frPlay.drop 1

/-- The C7 counterexample state: a client with the status-pending flag
set, so that accepting the masked-magic frame visibly changes state. -/
def sC7hi : PBState := { pbInit with statusRequestPending := true }

/-- A well-formed transport-mode reply on domain 0 reporting Stop. -/
def frStop : List Nat := mkFrame 0 CommandId.GetSeqTransportMode (writeInt 2)

/-- A well-formed `GetSeqTime` reply on domain 0 with time 1:2:3:4. -/
def frTime : List Nat :=
  mkFrame 0 CommandId.GetSeqTime (writeInt 1 ++ writeInt 2 ++ writeInt 3 ++ writeInt 4)

/-- A second `GetSeqTime` reply with a different time. -/
def frTime2 : List Nat :=
  mkFrame 0 CommandId.GetSeqTime (writeInt 9 ++ writeInt 8 ++ writeInt 7 ++ writeInt 6)


/-! ## Helper lemmas -/

theorem checksum_foldl (l : List Nat) :
    ∀ a : Nat, l.foldl (fun x b => (x + b) % 256) (a % 256) = (a + l.sum) % 256 := by
  induction l with
  | nil => intro a; simp
  | cons b t ih =>
    intro a
    have h1 : (a % 256 + b) % 256 = (a + b) % 256 := Nat.mod_add_mod a 256 b
    calc ((b :: t).foldl (fun x y => (x + y) % 256) (a % 256))
        = t.foldl (fun x y => (x + y) % 256) ((a % 256 + b) % 256) := rfl
      _ = t.foldl (fun x y => (x + y) % 256) ((a + b) % 256) := by rw [h1]
      _ = ((a + b) + t.sum) % 256 := ih (a + b)
      _ = (a + (b :: t).sum) % 256 := by rw [List.sum_cons]; ring_nf

/-- The checksum of any byte list is its sum modulo 256. -/
theorem checksum_eq_sum_mod (l : List Nat) : checksum l = l.sum % 256 := by
  have h := checksum_foldl l 0
  simpa [checksum] using h

theorem byteAt_lt (d : List Nat) (i : Nat) : byteAt d i < 256 :=
  Nat.mod_lt _ (by norm_num)

/-- A signed 16-bit read never produces `0xFFFF`: the `case 0xFFFF:` label in
the source switch is dead, only `-1` matches the sentinel. -/
theorem readInt16BEt_ne_ffff (d : List Nat) (off : Nat) : readInt16BEt d off ≠ 65535 := by
  have h0 := byteAt_lt d off
  have h1 := byteAt_lt d (off + 1)
  unfold readInt16BEt
  split <;> intro h <;> omega

/-- The guard structure of `handleData` as a single test. -/
theorem handleData_eq (s : PBState) (d : List Nat) :
    handleData s d = if frameOk s d = true then dispatchCmd s d else (s, []) := by
  unfold handleData frameOk
  by_cases h1 : 19 ≤ d.length
  · by_cases h2 : (d.take 4).map (fun b => b % 128) = pbauMagic
    · rw [List.map_take] at h2
      by_cases h3 : readInt32BEt d 5 = s.domain
      · simp [h1, h2, h3, Nat.not_lt_of_le h1]
      · simp [h1, h2, h3, Nat.not_lt_of_le h1]
    · rw [List.map_take] at h2
      simp [h1, h2, Nat.not_lt_of_le h1]
  · simp [h1, Nat.lt_of_not_le h1]

/-- Case description of `processStatusRequestQueue` on a connected client. -/
theorem processStatusRequestQueue_spec (s : PBState)
    (hs : s.socket = true) (hc : s.connecting = false) :
    (s.statusRequestPending = true ∧ processStatusRequestQueue s = (s, [])) ∨
    (s.statusRequestPending = false ∧ s.statusRequestQueue = [] ∧
      processStatusRequestQueue s = ({ s with currentStatusRequestId := none }, [])) ∨
    (∃ h t, s.statusRequestPending = false ∧ s.statusRequestQueue = h :: t ∧
      processStatusRequestQueue s =
        ({ s with statusRequestQueue := t, currentStatusRequestId := some h,
                  statusRequestPending := true },
         [TraceItem.sent CommandId.GetSeqTransportMode [writeInt h]])) := by
  unfold processStatusRequestQueue
  cases hp : s.statusRequestPending with
  | true => exact Or.inl ⟨rfl, by simp⟩
  | false =>
    cases hq : s.statusRequestQueue with
    | nil => exact Or.inr (Or.inl ⟨rfl, rfl, by simp⟩)
    | cons h t =>
      refine Or.inr (Or.inr ⟨h, t, rfl, rfl, ?_⟩)
      simp [send, hs, hc]

/-- Case description of `processSequenceNameQueue` on a connected client. -/
theorem processSequenceNameQueue_spec (s : PBState)
    (hs : s.socket = true) (hc : s.connecting = false) :
    (s.sequenceNameQueue = [] ∧ processSequenceNameQueue s = (s, [])) ∨
    (∃ h t, s.sequenceNameQueue = h :: t ∧
      processSequenceNameQueue s =
        ({ s with sequenceNameQueue := t, currentSequenceNameId := some h },
         [TraceItem.sent CommandId.GetSequenceName [writeInt h]])) := by
  unfold processSequenceNameQueue
  cases hq : s.sequenceNameQueue with
  | nil => exact Or.inl ⟨rfl, rfl⟩
  | cons h t =>
    refine Or.inr ⟨h, t, rfl, ?_⟩
    simp [fetchSequenceName, send, hs, hc]

/-! ## C1 -/

/-- C1 (counterexample): in a concrete encoded frame the header bytes that
precede the checksum byte (the bytes strictly between the 4-byte magic and
the checksum at offset 16) are the 12 bytes produced by `buildHeader`, not
11 as the claim states: the pre-header byte, 4 domain bytes, 2 length
bytes and 5 reserved bytes make 12. -/
theorem c1_header_bytes_count_counterexample :
    ((sendMessage 0 1 []).take 16).drop 4 = buildHeader 0 2 ∧
    (((sendMessage 0 1 []).take 16).drop 4).length = 12 ∧
    ¬ ((((sendMessage 0 1 []).take 16).drop 4).length = 11) := by decide

/-- C1 (amended): for every outbound frame built by the encoder, the
checksum byte (at offset 16, right after the 12-byte header) equals the
sum modulo 256 of exactly the 12 header bytes that precede it — the
pre-header byte, the 4 domain bytes, the 2 length bytes and the 5 reserved
bytes — with the 4 magic bytes and the checksum byte itself excluded. -/
theorem c1_checksum_over_twelve_header_bytes (domain commandId : Int) (parts : List (List Nat)) :
    (buildHeader domain (writeShort commandId ++ parts.flatten).length).length = 12 ∧
    checksum (buildHeader domain (writeShort commandId ++ parts.flatten).length)
      = (buildHeader domain (writeShort commandId ++ parts.flatten).length).sum % 256 ∧
    sendMessage domain commandId parts
      = pbauMagic ++ buildHeader domain (writeShort commandId ++ parts.flatten).length
          ++ [checksum (buildHeader domain (writeShort commandId ++ parts.flatten).length)]
          ++ (writeShort commandId ++ parts.flatten) ∧
    (sendMessage domain commandId parts).getD 16 0
      = (buildHeader domain (writeShort commandId ++ parts.flatten).length).sum % 256 := by
  refine ⟨rfl, checksum_eq_sum_mod _, rfl, ?_⟩
  show (pbauMagic ++ buildHeader domain (writeShort commandId ++ parts.flatten).length
          ++ [checksum (buildHeader domain (writeShort commandId ++ parts.flatten).length)]
          ++ (writeShort commandId ++ parts.flatten)).getD 16 0 = _
  rw [show (pbauMagic ++ buildHeader domain (writeShort commandId ++ parts.flatten).length
          ++ [checksum (buildHeader domain (writeShort commandId ++ parts.flatten).length)]
          ++ (writeShort commandId ++ parts.flatten)).getD 16 0
        = checksum (buildHeader domain (writeShort commandId ++ parts.flatten).length) from rfl]
  exact checksum_eq_sum_mod _

/-! ## C2 -/

/-- C2 (code bug): with a status request for sequence 7 outstanding
(`statusRequestPending` set, `currentStatusRequestId = 7`, sequence 3
queued), the error-sentinel reply removes 7 from `pollSequenceIds` but
does **not** advance the status queue: `processStatusRequestQueue` returns
immediately because the error branch never clears `statusRequestPending`,
so no status request for 3 is sent, the queue keeps `[3]`, the cursor
keeps `7`, and the pending flag stays set (status polling stalls). -/
theorem c2_error_reply_stalls_status_queue :
    handleData s2bug errFrame = ({ s2bug with pollSequenceIds := [3] }, []) ∧
    (handleData s2bug errFrame).1.statusRequestPending = true ∧
    (handleData s2bug errFrame).1.statusRequestQueue = [3] ∧
    (handleData s2bug errFrame).1.currentStatusRequestId = some 7 ∧
    (handleData s2bug errFrame).2.filter isStatusSend = [] := by decide

/-! ## C5 -/

/-- C5 (counterexample): `refreshSequences` called while a name request for
sequence 5 is outstanding leaves `currentSequenceNameId = some 5` — the
outstanding-name-request cursor is not cleared, contradicting the claim
that all four pieces of discovery state are cleared. -/
theorem c5_refresh_keeps_name_cursor :
    (refreshSequences s5cex).1.currentSequenceNameId = some 5 ∧
    (refreshSequences s5cex).1.currentSequenceNameId ≠ none ∧
    (refreshSequences s5cex).1.pendingSequenceIds = [] ∧
    (refreshSequences s5cex).1.pendingSequenceNames = [] ∧
    (refreshSequences s5cex).1.sequenceNameQueue = [] := by decide

/-- C5 (amended): on a connected client, `refreshSequences()` clears the
accumulated ID list, the accumulated names and the name queue — but not
the outstanding-name-request cursor `currentSequenceNameId`, which is left
unchanged — and then sends the "get sequence IDs" command. -/
theorem c5_refresh_clears_discovery_state (s : PBState)
    (hs : s.socket = true) (hc : s.connecting = false) :
    refreshSequences s
      = ({ s with pendingSequenceIds := [], pendingSequenceNames := [],
                  sequenceNameQueue := [] },
         [TraceItem.sent CommandId.GetSequenceIds []]) ∧
    (refreshSequences s).1.currentSequenceNameId = s.currentSequenceNameId := by
  unfold refreshSequences send
  simp [hs, hc]

/-- Witness for C5 (amended) at the fresh connected state. -/
theorem c5_refresh_clears_discovery_state_witness :
    (pbInit.socket = true ∧ pbInit.connecting = false) ∧
    (refreshSequences pbInit).1.currentSequenceNameId = pbInit.currentSequenceNameId :=
  ⟨⟨rfl, rfl⟩, (c5_refresh_clears_discovery_state pbInit rfl rfl).2⟩

/-! ## C7 -/

/-- C7 (counterexample): a 23-byte buffer whose first 4 bytes are
`[0xD0, 0x42, 0x41, 0x55]` — not the ASCII magic "PBAU" — but whose bytes
masked to 7 bits decode to "PBAU", is accepted by the data handler: it
clears the status-pending flag (a connection-state change) and invokes
the transport callback, contradicting the claim that any buffer whose
first 4 bytes are not the magic produces no callback and no state
change. -/
theorem c7_high_bit_magic_counterexample :
    hiMagicFrame.take 4 ≠ pbauMagic ∧
    handleData sC7hi hiMagicFrame
      = ({ sC7hi with statusRequestPending := false },
         [TraceItem.cbTransport TransportState.Play]) ∧
    handleData sC7hi hiMagicFrame ≠ (sC7hi, []) := by decide

/-- C7 (amended): a buffer shorter than 19 bytes, or whose first 4 bytes do
not decode to the magic "PBAU" under Node's high-bit-stripping `'ascii'`
decoding (each byte masked with `% 128`), or whose big-endian domain field
at offset 5 differs from the locally configured domain, is dropped by both
data handlers: no callback is invoked, no frame is sent, the connection
state is unchanged, and no exception escapes (the guards return before any
risky read). -/
theorem c7_malformed_frames_ignored :
    (∀ (s : PBState) (d : List Nat),
        d.length < 19 ∨ (d.take 4).map (fun b => b % 128) ≠ pbauMagic ∨
          readInt32BEt d 5 ≠ s.domain →
        handleData s d = (s, [])) ∧
    (∀ (domain : Int) (d : List Nat),
        d.length < 19 ∨ (d.take 4).map (fun b => b % 128) ≠ pbauMagic ∨
          readInt32BEt d 5 ≠ domain →
        seqHandleData domain d = []) := by
  constructor
  · intro s d h
    unfold handleData
    rcases h with h | h | h
    · simp [h]
    · rw [List.map_take] at h
      by_cases h1 : d.length < 19
      · simp [h1]
      · simp [h1, h]
    · by_cases h1 : d.length < 19
      · simp [h1]
      · by_cases h2 : (d.take 4).map (fun b => b % 128) = pbauMagic
        · rw [List.map_take] at h2
          simp [h1, h2, h]
        · rw [List.map_take] at h2
          simp [h1, h2]
  · intro domain d h
    unfold seqHandleData
    rcases h with h | h | h
    · simp [h]
    · rw [List.map_take] at h
      by_cases h1 : d.length < 19
      · simp [h1]
      · simp [h1, h]
    · by_cases h1 : d.length < 19
      · simp [h1]
      · by_cases h2 : (d.take 4).map (fun b => b % 128) = pbauMagic
        · rw [List.map_take] at h2
          simp [h1, h2, h]
        · rw [List.map_take] at h2
          simp [h1, h2]

/-- Witness for C7 (amended): the empty buffer is dropped by the control
handler. -/
theorem c7_malformed_frames_ignored_witness :
    ([] : List Nat).length < 19 ∧ handleData pbInit [] = (pbInit, []) :=
  ⟨by decide, c7_malformed_frames_ignored.1 pbInit [] (Or.inl (by decide))⟩

/-! ## C8 -/

/-- C8 (counterexample): a command operation invoked while disconnected
with an out-of-range integer argument is not a silent no-op: the payload
is built before `send` consults its guard, and `writeInt32BE` throws
`ERR_OUT_OF_RANGE` for `2^31`, so `setTransport(0, 2^31)` on a
disconnected client errors (`none`) instead of returning `(s, [])`. -/
theorem c8_out_of_range_throws_counterexample :
    sDisc.socket = false ∧
    setTransport sDisc 0 2147483648 = none ∧
    setTransport sDisc 0 2147483648 ≠ some (sDisc, []) := by decide

/-- C8 (amended): every command operation of the Control Connection,
attempted while the socket is absent or while a connect is in progress,
with integer arguments inside the ranges of their wire encodings (signed
32-bit for 4-byte fields, `[0, 65535]` for the IP-string length — which
always holds for protocol-valid values), returns without error, writes
nothing to the transport and leaves the state unchanged; an out-of-range
integer argument instead throws `ERR_OUT_OF_RANGE` during payload
construction, before the disconnected-guard is consulted. -/
theorem c8_commands_noop_when_disconnected (s : PBState)
    (h : s.socket = false ∨ s.connecting = true) :
    (∀ mode sequenceId, int32Ok mode → int32Ok sequenceId →
        setTransport s mode sequenceId = some (s, [])) ∧
    (∀ sequenceId, int32Ok sequenceId → selectSequence s sequenceId = some (s, [])) ∧
    (∀ sequenceId cueId, int32Ok sequenceId → int32Ok cueId →
        gotoCue s sequenceId cueId = some (s, [])) ∧
    (∀ sequenceId isNext, int32Ok sequenceId →
        nextOrLastCue s sequenceId isNext = some (s, [])) ∧
    (∀ sequenceId doIgnore, int32Ok sequenceId →
        ignoreNextCue s sequenceId doIgnore = some (s, [])) ∧
    (∀ viewId, int32Ok viewId → applyView s viewId = some (s, [])) ∧
    saveProject s = some (s, []) ∧
    (∀ siteId, int32Ok siteId → toggleFullscreen s siteId = some (s, [])) ∧
    (∀ siteId ip, int32Ok siteId → ip.data.length < 65536 →
        setSiteIp s siteId ip = some (s, [])) ∧
    clearAllActive s = some (s, []) ∧
    (∀ sequenceId, int32Ok sequenceId → storeActive s sequenceId = some (s, [])) ∧
    (∀ sequenceId, int32Ok sequenceId → storeActiveToBeginning s sequenceId = some (s, [])) ∧
    resetAll s = some (s, []) ∧
    (∀ sequenceId mode, int32Ok sequenceId → int32Ok mode →
        setSequenceSmpteMode s sequenceId mode = some (s, [])) := by
  have hsend : ∀ c p, send s c p = (s, []) := by
    intro c p
    unfold send
    rw [if_pos h]
  have hw : ∀ n, int32Ok n → writeIntChecked n = some (writeInt n) := by
    intro n hn
    unfold int32Ok at hn
    unfold writeIntChecked
    rw [if_pos hn]
  refine ⟨?_, ?_, ?_, ?_, ?_, ?_, ?_, ?_, ?_, ?_, ?_, ?_, ?_, ?_⟩
  · intro mode sequenceId hm hq
    simp [setTransport, hw _ hm, hw _ hq, hsend]
  · intro sequenceId hq
    simp [selectSequence, hw _ hq, hsend]
  · intro sequenceId cueId hq hcu
    simp [gotoCue, hw _ hq, hw _ hcu, hsend]
  · intro sequenceId isNext hq
    simp [nextOrLastCue, hw _ hq, hsend]
  · intro sequenceId doIgnore hq
    simp [ignoreNextCue, hw _ hq, hsend]
  · intro viewId hv
    simp [applyView, hw _ hv, hsend]
  · simp [saveProject, hsend]
  · intro siteId hv
    simp [toggleFullscreen, hw _ hv, hsend]
  · intro siteId ip hv hlen
    have hlen2 : ip.length < 65536 := hlen
    have hws : writeShortChecked (ip.length : Int) = some (writeShort (ip.length : Int)) := by
      unfold writeShortChecked
      rw [if_pos ⟨Int.ofNat_nonneg _, by exact_mod_cast hlen2⟩]
    simp [setSiteIp, hw _ hv, hws, hsend]
  · simp [clearAllActive, hsend]
  · intro sequenceId hq
    simp [storeActive, hw _ hq, hsend]
  · intro sequenceId hq
    simp [storeActiveToBeginning, hw _ hq, hsend]
  · simp [resetAll, hsend]
  · intro sequenceId mode hq hm
    simp [setSequenceSmpteMode, hw _ hq, hw _ hm, hsend]

/-- Witness for C8 (amended) at a disconnected state. -/
theorem c8_commands_noop_when_disconnected_witness :
    (sDisc.socket = false ∨ sDisc.connecting = true) ∧
    saveProject sDisc = some (sDisc, []) :=
  ⟨Or.inl rfl,
   (c8_commands_noop_when_disconnected sDisc (Or.inl rfl)).2.2.2.2.2.2.1⟩

/-! ## C3 -/

/-- C3: in the discovery pipeline, when the server returns the ID list
[3, 7, 2] and then the names "Act 1", "Act 2", "Act 3" one per name
request in request order, the consumer is notified exactly once with the
list [(3, "Act 1"), (7, "Act 2"), (2, "Act 3")] in the original ID order;
and when the reply to the name request for ID 7 is instead the error
sentinel, the final list omits ID 7 entirely and the completion
notification still fires exactly once, after the names for IDs 3 and 2
have arrived. -/
theorem c3_discovery_pipeline_order_and_error_skip :
    (run pbInit evsC3a).2.filter isSequencesUpdated
      = [TraceItem.cbSequencesUpdated [(3, "Act 1"), (7, "Act 2"), (2, "Act 3")]] ∧
    (run pbInit evsC3b).2.filter isSequencesUpdated
      = [TraceItem.cbSequencesUpdated [(3, "Act 1"), (2, "Act 3")]] := by decide

/-! ## Output-shape lemmas for the queue processors -/

/-- The status-queue processor only ever writes frames; it invokes no
consumer callback. -/
theorem processStatusRequestQueue_no_cb (s : PBState) :
    (processStatusRequestQueue s).2.filter isCb = [] := by
  unfold processStatusRequestQueue
  split
  · rfl
  · split
    · rfl
    · unfold send
      split
      · rfl
      · rfl

/-- The name-queue processor only ever writes frames; it invokes no
consumer callback. -/
theorem processSequenceNameQueue_no_cb (s : PBState) :
    (processSequenceNameQueue s).2.filter isCb = [] := by
  unfold processSequenceNameQueue
  split
  · rfl
  · unfold fetchSequenceName send
    split
    · rfl
    · rfl

/-- The status half of the error-sentinel branch invokes no consumer
callback. -/
theorem handleErrorStatusPart_no_cb (s : PBState) :
    (handleErrorStatusPart s).2.filter isCb = [] := by
  unfold handleErrorStatusPart
  split
  · exact processStatusRequestQueue_no_cb _
  · rfl

/-- The name half of the error-sentinel branch invokes no consumer
callback. -/
theorem handleErrorNamePart_no_cb (s : PBState) :
    (handleErrorNamePart s).2.filter isCb = [] := by
  unfold handleErrorNamePart
  split
  · exact processSequenceNameQueue_no_cb _
  · rfl

/-- The error-sentinel branch invokes no consumer callback. -/
theorem handleError_no_cb (s : PBState) :
    (handleError s).2.filter isCb = [] := by
  unfold handleError
  simp only [List.filter_append, List.append_eq_nil]
  exact ⟨handleErrorStatusPart_no_cb _, handleErrorNamePart_no_cb _⟩

/-! ## C9 -/

/-- C9: the discovery-completion callback is never invoked from the
error-sentinel branch — any well-formed frame whose command identifier
reads as `-1` produces no `onSequencesUpdated` invocation — and in the
concrete run where the error sentinel answers the final queued name
request (IDs [3, 7], name "A" for 3, then the sentinel for 7) the
consumer is never notified for the discovery run, even though the
recorded-name count then equals the reduced expected-ID count. -/
theorem c9_completion_only_from_successful_name_reply :
    (∀ (s : PBState) (d : List Nat) (l : List (Int × String)),
        frameOk s d = true → readInt16BEt d 17 = -1 →
        TraceItem.cbSequencesUpdated l ∉ (handleData s d).2) ∧
    ((run pbInit evsC9).2.filter isSequencesUpdated = [] ∧
      (run pbInit evsC9).1.pendingSequenceNames.length
        = (run pbInit evsC9).1.pendingSequenceIds.length ∧
      (run pbInit evsC9).1.pendingSequenceIds = [3]) := by
  constructor
  · intro s d l hf hc
    rw [handleData_eq, if_pos hf]
    unfold dispatchCmd
    rw [hc]
    norm_num [CommandId.GetSeqTransportMode, CommandId.GetRemainingTimeUntilNextCue,
      CommandId.GetSequenceIds, CommandId.GetSequenceName]
    intro hmem
    have h0 : TraceItem.cbSequencesUpdated l ∈ (handleError s).2.filter isCb :=
      List.mem_filter.mpr ⟨hmem, rfl⟩
    rw [handleError_no_cb] at h0
    exact absurd h0 (List.not_mem_nil _)
  · decide

/-- Witness for C9: the error frame on the fresh state produces no
completion callback. -/
theorem c9_completion_witness :
    (frameOk pbInit errFrame = true ∧ readInt16BEt errFrame 17 = -1) ∧
    TraceItem.cbSequencesUpdated [] ∉ (handleData pbInit errFrame).2 :=
  ⟨by decide,
   c9_completion_only_from_successful_name_reply.1 pbInit errFrame [] (by decide) (by decide)⟩

/-! ## C10 -/

/-- C10: each invocation of the inbound data handler decodes at most one
frame — the command identifier is read only at offset 17, so at most one
consumer callback results from any single buffer.  Concretely: a buffer
holding two concatenated well-formed transport frames (Play then Stop)
yields exactly the Play callback, the Stop frame being ignored; a frame
split across two reads yields nothing in either invocation and leaves the
state untouched (no partial-frame bytes are buffered); a frame preceded by
19 junk bytes is ignored entirely; and the same holds for the Timecode
Connection handler with two concatenated time replies. -/
theorem c10_single_frame_per_invocation :
    (∀ (s : PBState) (d : List Nat), ((handleData s d).2.filter isCb).length ≤ 1) ∧
    handleData s10conc (frPlay ++ frStop)
      = ({ s10conc with statusRequestPending := false, currentStatusRequestId := none,
                        sequenceStates := [(7, TransportState.Play)] },
         [TraceItem.cbSequenceTransport 7 TransportState.Play]) ∧
    handleData s10conc (frPlay.take 18) = (s10conc, []) ∧
    handleData s10conc (frPlay.drop 18) = (s10conc, []) ∧
    handleData s10conc (List.replicate 19 0 ++ frPlay) = (s10conc, []) ∧
    seqHandleData 0 (frTime ++ frTime2) = [TraceItem.cbSequenceTime 1 2 3 4] ∧
    seqHandleData 0 (frTime.take 18) = [] ∧
    seqHandleData 0 (frTime.drop 18) = [] := by
  refine ⟨?_, by decide, by decide, by decide, by decide, by decide, by decide, by decide⟩
  intro s d
  rw [handleData_eq]
  split
  · unfold dispatchCmd
    split
    · unfold handleTransportMode
      split
      · split
        · simp [List.filter_cons, isCb, processStatusRequestQueue_no_cb]
        · simp [List.filter_cons, isCb]
      · simp
    · split
      · unfold handleRemaining
        split
        · simp [List.filter_cons, isCb]
        · simp [List.filter_cons, isCb]
      · split
        · unfold handleSeqIds
          split
          · simp [processSequenceNameQueue_no_cb]
          · simp [List.filter_cons, isCb]
        · split
          · unfold handleSeqName
            split
            · simp
            · split
              · dsimp only
                split
                · simp [List.filter_cons, isCb]
                · simp [processSequenceNameQueue_no_cb]
              · simp [List.filter_cons, isCb]
          · split
            · simp [handleError_no_cb]
            · simp
  · simp

/-! ## C6 -/

/-- The ID-reading loop equals its closed form: starting at `off`, it reads
`min n ((len - off) / 4)` little-endian 32-bit integers at consecutive
4-byte offsets — i.e. `n` IDs, stopping early only if the buffer ends. -/
theorem parseIdsGo_eq (d : List Nat) :
    ∀ (n off : Nat), parseIdsGo d n off
      = (List.range (min n ((d.length - off) / 4))).map (fun i => readInt32LEt d (off + 4 * i)) := by
  intro n
  induction n with
  | zero => intro off; simp [parseIdsGo]
  | succ k ih =>
    intro off
    by_cases h : off + 4 ≤ d.length
    · have hdiv : (d.length - off) / 4 = (d.length - (off + 4)) / 4 + 1 := by
        have hsub : d.length - off = (d.length - (off + 4)) + 4 := by omega
        rw [hsub, Nat.add_div_right _ (by norm_num)]
      rw [parseIdsGo, if_pos h, ih (off + 4), hdiv, Nat.succ_min_succ, List.range_succ_eq_map]
      simp only [List.map_cons, List.map_map, Nat.mul_zero, Nat.add_zero]
      refine congrArg₂ _ rfl ?_
      apply List.map_congr_left
      intro i _
      simp only [Function.comp_apply]
      congr 1
      omega
    · have hz : (d.length - off) / 4 = 0 := Nat.div_eq_of_lt (by omega)
      rw [parseIdsGo, if_neg h, hz]
      simp

/-- C6: for every well-formed "get sequence IDs" reply frame (long enough
for the count read not to throw), the decoder parses the 4-byte big-endian
count at the payload start, skips the 4-byte unused field, reads `count`
4-byte little-endian sequence IDs stopping early only at the buffer end,
stores them, seeds the name queue with exactly those IDs in that order,
clears the accumulated names, and then starts draining the name queue. -/
theorem c6_sequence_ids_reply_decode (s : PBState) (d : List Nat)
    (hf : frameOk s d = true)
    (hc : readInt16BEt d 17 = CommandId.GetSequenceIds)
    (hl : 23 ≤ d.length) :
    handleData s d = processSequenceNameQueue (seedSequenceIds s d) ∧
    (seedSequenceIds s d).pendingSequenceIds = specSequenceIdList d ∧
    (seedSequenceIds s d).sequenceNameQueue = specSequenceIdList d ∧
    (seedSequenceIds s d).pendingSequenceNames = [] := by
  refine ⟨?_, ?_, ?_, rfl⟩
  · rw [handleData_eq, if_pos hf]
    unfold dispatchCmd
    rw [hc]
    norm_num [CommandId.GetSeqTransportMode, CommandId.GetRemainingTimeUntilNextCue,
      CommandId.GetSequenceIds, CommandId.GetSequenceName, handleSeqIds, hl]
  · show parseIdsGo d (readInt32BEt d 19).toNat 27 = specSequenceIdList d
    rw [parseIdsGo_eq, specSequenceIdList]
  · show parseIdsGo d (readInt32BEt d 19).toNat 27 = specSequenceIdList d
    rw [parseIdsGo_eq, specSequenceIdList]

/-- Witness for C6 on the concrete reply frame for IDs [3, 7, 2]. -/
theorem c6_sequence_ids_reply_decode_witness :
    (frameOk pbInit (idsReplyFrame [3, 7, 2]) = true ∧
      readInt16BEt (idsReplyFrame [3, 7, 2]) 17 = CommandId.GetSequenceIds ∧
      23 ≤ (idsReplyFrame [3, 7, 2]).length) ∧
    (seedSequenceIds pbInit (idsReplyFrame [3, 7, 2])).sequenceNameQueue
      = specSequenceIdList (idsReplyFrame [3, 7, 2]) :=
  ⟨by decide,
   (c6_sequence_ids_reply_decode pbInit (idsReplyFrame [3, 7, 2])
     (by decide) (by decide) (by decide)).2.2.1⟩

/-! ## C4: trace automaton machinery -/

theorem scanOk_append (p q : TraceItem → Bool) (t1 t2 : List TraceItem) :
    ∀ b, scanOk p q b (t1 ++ t2) = (scanOk p q b t1).bind (fun b2 => scanOk p q b2 t2) := by
  induction t1 with
  | nil => intro b; simp [scanOk]
  | cons i t ih =>
    intro b
    simp only [List.cons_append, scanOk]
    by_cases hp : p i = true
    · rw [if_pos hp, if_pos hp]
      by_cases hb : b = true
      · subst hb; simp
      · simp only [Bool.not_eq_true] at hb; subst hb; simp [ih]
    · rw [if_neg hp, if_neg hp]
      by_cases hq : q i = true
      · rw [if_pos hq, if_pos hq]; exact ih false
      · rw [if_neg hq, if_neg hq]; exact ih b

/-- The status-queue processor seen by both automata: its output keeps the
status automaton in sync with the pending flag, contains no name traffic,
and it leaves the name cursor and the connectivity fields unchanged. -/
theorem psq_scan (s : PBState) (b p : Bool)
    (hp : s.statusRequestPending = p)
    (hs : s.socket = true) (hc : s.connecting = false) :
    scanOk isStatusSend isStatusAns p (processStatusRequestQueue s).2
      = some (processStatusRequestQueue s).1.statusRequestPending ∧
    scanOk isNameSend isNameAns b (processStatusRequestQueue s).2 = some b ∧
    (processStatusRequestQueue s).1.currentSequenceNameId = s.currentSequenceNameId ∧
    (processStatusRequestQueue s).1.socket = true ∧
    (processStatusRequestQueue s).1.connecting = false := by
  subst hp
  by_cases hpend : s.statusRequestPending = true
  · unfold processStatusRequestQueue
    rw [if_pos hpend]
    exact ⟨by simp [scanOk], by simp [scanOk], rfl, hs, hc⟩
  · simp only [Bool.not_eq_true] at hpend
    unfold processStatusRequestQueue
    rw [if_neg (by simp [hpend])]
    split
    · exact ⟨by simp [scanOk], by simp [scanOk], rfl, hs, hc⟩
    · unfold send
      rw [if_neg (by simp [hs, hc])]
      refine ⟨?_, ?_, rfl, hs, hc⟩
      · simp [scanOk, isStatusSend, isStatusAns, hpend]
      · simp [scanOk, isNameSend, isNameAns, CommandId.GetSeqTransportMode,
          CommandId.GetSequenceName]

/-- The name-queue processor seen by both automata, entered with the name
automaton idle: no violation, and it ends busy exactly when it has set the
name cursor; it emits no status traffic and leaves the pending flag and
connectivity unchanged. -/
theorem psn_scan (s : PBState) (p : Bool)
    (hs : s.socket = true) (hc : s.connecting = false) :
    (∃ b2, scanOk isNameSend isNameAns false (processSequenceNameQueue s).2 = some b2 ∧
       (b2 = true → (processSequenceNameQueue s).1.currentSequenceNameId.isSome = true)) ∧
    scanOk isStatusSend isStatusAns p (processSequenceNameQueue s).2 = some p ∧
    (processSequenceNameQueue s).1.statusRequestPending = s.statusRequestPending ∧
    (processSequenceNameQueue s).1.socket = true ∧
    (processSequenceNameQueue s).1.connecting = false := by
  unfold processSequenceNameQueue
  split
  · exact ⟨⟨false, by simp [scanOk], by simp⟩, by simp [scanOk], rfl, hs, hc⟩
  · unfold fetchSequenceName send
    rw [if_neg (by simp [hs, hc])]
    refine ⟨⟨true, ?_, fun _ => rfl⟩, ?_, rfl, hs, hc⟩
    · simp [scanOk, isNameSend, isNameAns]
    · simp [scanOk, isStatusSend, isStatusAns, CommandId.GetSeqTransportMode,
        CommandId.GetSequenceName]

/-- The status half of the error branch seen by both automata. -/
theorem errStatusPart_scan (s : PBState) (b p : Bool)
    (hp : s.statusRequestPending = p)
    (hs : s.socket = true) (hc : s.connecting = false) :
    scanOk isStatusSend isStatusAns p (handleErrorStatusPart s).2
      = some (handleErrorStatusPart s).1.statusRequestPending ∧
    scanOk isNameSend isNameAns b (handleErrorStatusPart s).2 = some b ∧
    (handleErrorStatusPart s).1.currentSequenceNameId = s.currentSequenceNameId ∧
    (handleErrorStatusPart s).1.socket = true ∧
    (handleErrorStatusPart s).1.connecting = false := by
  unfold handleErrorStatusPart
  split
  · exact psq_scan _ b p hp hs hc
  · subst hp
    exact ⟨by simp [scanOk], by simp [scanOk], rfl, hs, hc⟩

/-- The name half of the error branch seen by both automata, entered with
the name automaton idle. -/
theorem errNamePart_scan (s : PBState) (p : Bool)
    (hs : s.socket = true) (hc : s.connecting = false) :
    (∃ b2, scanOk isNameSend isNameAns false (handleErrorNamePart s).2 = some b2 ∧
       (b2 = true → (handleErrorNamePart s).1.currentSequenceNameId.isSome = true)) ∧
    scanOk isStatusSend isStatusAns p (handleErrorNamePart s).2 = some p ∧
    (handleErrorNamePart s).1.statusRequestPending = s.statusRequestPending ∧
    (handleErrorNamePart s).1.socket = true ∧
    (handleErrorNamePart s).1.connecting = false := by
  unfold handleErrorNamePart
  split
  · exact psn_scan _ p hs hc
  · exact ⟨⟨false, by simp [scanOk], by simp⟩, by simp [scanOk], rfl, hs, hc⟩

/-- All four trace-scanning conclusions for one step of the event model:
connectivity is preserved, the status automaton tracks the pending flag
exactly, and the name automaton never hits a violation and ends busy only
with the name cursor set — given the `goodCondB` discipline for the
incoming event. -/
theorem step_spec (s : PBState) (e : PBEvent) (b : Bool)
    (hs : s.socket = true) (hc : s.connecting = false) :
    ((step s e).1.socket = true ∧ (step s e).1.connecting = false ∧
      scanOk isStatusSend isStatusAns s.statusRequestPending (step s e).2
        = some (step s e).1.statusRequestPending) ∧
    ((b = true → s.currentSequenceNameId.isSome = true) → goodCondB s e = true →
      ∃ b2, scanOk isNameSend isNameAns b (step s e).2 = some b2 ∧
        (b2 = true → (step s e).1.currentSequenceNameId.isSome = true)) := by
  cases e with
  | tickEv =>
    simp only [step]
    unfold tick
    split
    · rcases processStatusRequestQueue_spec { s with statusRequestQueue := s.pollSequenceIds }
        hs hc with ⟨hp, heq⟩ | ⟨hp, hq, heq⟩ | ⟨h1, t1, hp, hq, heq⟩
      · rw [heq]
        exact ⟨⟨hs, hc, by simp [scanOk]⟩, fun hbx hgx => ⟨b, by simp [scanOk], hbx⟩⟩
      · rw [heq]
        exact ⟨⟨hs, hc, by simp [scanOk]⟩, fun hbx hgx => ⟨b, by simp [scanOk], hbx⟩⟩
      · rw [heq]
        have hp2 : s.statusRequestPending = false := hp
        refine ⟨⟨hs, hc, ?_⟩, fun hbx hgx => ⟨b, ?_, hbx⟩⟩
        · simp [scanOk, isStatusSend, isStatusAns, hp2]
        · simp [scanOk, isNameSend, isNameAns, CommandId.GetSeqTransportMode,
            CommandId.GetSequenceName]
    · exact ⟨⟨hs, hc, by simp [scanOk]⟩, fun hbx hgx => ⟨b, by simp [scanOk], hbx⟩⟩
  | refreshEv =>
    simp only [step]
    unfold refreshSequences send
    rw [if_neg (by simp [hs, hc])]
    refine ⟨⟨hs, hc, ?_⟩, fun hbx hgx => ⟨b, ?_, hbx⟩⟩
    · simp [scanOk, isStatusSend, isStatusAns, CommandId.GetSequenceIds,
        CommandId.GetSeqTransportMode]
    · simp [scanOk, isNameSend, isNameAns, CommandId.GetSequenceIds,
        CommandId.GetSequenceName]
  | recvEv d =>
    simp only [step]
    by_cases hf : frameOk s d = true
    · rw [handleData_eq, if_pos hf]
      simp only [hf, if_true]
      unfold dispatchCmd
      by_cases h1 : readInt16BEt d 17 = CommandId.GetSeqTransportMode
      · simp only [h1, if_pos]
        unfold handleTransportMode
        split
        · split
          · rename_i reqId hcs
            dsimp only
            generalize (if readInt32BEt d 19 = 1 then TransportState.Play
              else if readInt32BEt d 19 = 2 then TransportState.Stop
              else if readInt32BEt d 19 = 3 then TransportState.Pause
              else TransportState.Unknown) = st
            obtain ⟨q1, q2, q3, q4, q5⟩ :=
              psq_scan (updateSequenceState { s with statusRequestPending := false } reqId st)
                b false rfl hs hc
            refine ⟨⟨q4, q5, ?_⟩, fun hbx hgx => ⟨b, ?_, ?_⟩⟩
            · simp only [List.singleton_append, scanOk, isStatusSend, isStatusAns,
                isNameSend, isNameAns, CommandId.GetSeqTransportMode]
              exact q1
            · simp only [List.singleton_append, scanOk, isStatusSend, isStatusAns,
                isNameSend, isNameAns, CommandId.GetSeqTransportMode,
                CommandId.GetSequenceName]
              exact q2
            · intro hb2
              rw [q3]
              exact hbx hb2
          · dsimp only
            refine ⟨⟨hs, hc, ?_⟩, fun hbx hgx => ⟨b, ?_, hbx⟩⟩
            · simp [scanOk, isStatusSend, isStatusAns, CommandId.GetSeqTransportMode]
            · simp [scanOk, isNameSend, isNameAns, CommandId.GetSeqTransportMode,
                CommandId.GetSequenceName]
        · refine ⟨⟨hs, hc, ?_⟩, fun hbx hgx => ⟨b, ?_, hbx⟩⟩
          · simp [scanOk, isStatusSend, isStatusAns, CommandId.GetSeqTransportMode]
          · simp [scanOk, isNameSend, isNameAns, CommandId.GetSeqTransportMode,
              CommandId.GetSequenceName]
      · rw [if_neg h1]
        by_cases h2 : readInt16BEt d 17 = CommandId.GetRemainingTimeUntilNextCue
        · simp only [h2, if_pos]
          unfold handleRemaining
          split
          · refine ⟨⟨hs, hc, ?_⟩, fun hbx hgx => ⟨b, ?_, hbx⟩⟩
            · simp [scanOk, isStatusSend, isStatusAns,
                CommandId.GetRemainingTimeUntilNextCue, CommandId.GetSeqTransportMode]
            · simp [scanOk, isNameSend, isNameAns,
                CommandId.GetRemainingTimeUntilNextCue, CommandId.GetSequenceName]
          · refine ⟨⟨hs, hc, ?_⟩, fun hbx hgx => ⟨b, ?_, hbx⟩⟩
            · simp [scanOk, isStatusSend, isStatusAns,
                CommandId.GetRemainingTimeUntilNextCue, CommandId.GetSeqTransportMode]
            · simp [scanOk, isNameSend, isNameAns,
                CommandId.GetRemainingTimeUntilNextCue, CommandId.GetSequenceName]
        · rw [if_neg h2]
          by_cases h3 : readInt16BEt d 17 = CommandId.GetSequenceIds
          · simp only [h3, if_pos]
            unfold handleSeqIds
            split
            · obtain ⟨⟨b2, hname, hcb2⟩, hstat, hpend, hsock, hconn⟩ :=
                psn_scan (seedSequenceIds s d) s.statusRequestPending hs hc
              refine ⟨⟨hsock, hconn, ?_⟩, fun hbx hgx => ?_⟩
              · simp only [List.singleton_append, scanOk, isStatusSend, isStatusAns,
                  isNameSend, isNameAns, CommandId.GetSequenceIds,
                  CommandId.GetSeqTransportMode]
                rw [hpend]
                exact hstat
              · have hcur : s.currentSequenceNameId = none := by
                  have hgx2 := hgx
                  simp [goodCondB, hf, h3] at hgx2
                  exact hgx2
                have hbf : b = false := by
                  by_cases hbt : b = true
                  · have := hbx hbt
                    rw [hcur] at this
                    simp at this
                  · simpa using hbt
                subst hbf
                refine ⟨b2, ?_, hcb2⟩
                simp only [List.singleton_append, scanOk, isStatusSend, isStatusAns,
                  isNameSend, isNameAns, CommandId.GetSequenceIds,
                  CommandId.GetSequenceName]
                exact hname
            · refine ⟨⟨hs, hc, ?_⟩, fun hbx hgx => ?_⟩
              · simp [scanOk, isStatusSend, isStatusAns, CommandId.GetSequenceIds,
                  CommandId.GetSeqTransportMode]
              · have hcur : s.currentSequenceNameId = none := by
                  have hgx2 := hgx
                  simp [goodCondB, hf, h3] at hgx2
                  exact hgx2
                have hbf : b = false := by
                  by_cases hbt : b = true
                  · have := hbx hbt
                    rw [hcur] at this
                    simp at this
                  · simpa using hbt
                subst hbf
                refine ⟨false, ?_, by simp⟩
                simp [scanOk, isNameSend, isNameAns, CommandId.GetSequenceIds,
                  CommandId.GetSequenceName]
          · rw [if_neg h3]
            by_cases h4 : readInt16BEt d 17 = CommandId.GetSequenceName
            · simp only [h4, if_pos]
              unfold handleSeqName
              split
              · refine ⟨⟨hs, hc, ?_⟩, fun hbx hgx => ⟨false, ?_, by simp⟩⟩
                · simp [scanOk, isStatusSend, isStatusAns, CommandId.GetSequenceName,
                    CommandId.GetSeqTransportMode]
                · simp [scanOk, isNameSend, isNameAns, CommandId.GetSequenceName]
              · rename_i reqId hcs
                split
                · dsimp only
                  split
                  · refine ⟨⟨hs, hc, ?_⟩, fun hbx hgx => ⟨false, ?_, by simp⟩⟩
                    · simp [scanOk, isStatusSend, isStatusAns, CommandId.GetSequenceName,
                        CommandId.GetSeqTransportMode]
                    · simp [scanOk, isNameSend, isNameAns, CommandId.GetSequenceName]
                  · obtain ⟨⟨b2, hname, hcb2⟩, hstat, hpend, hsock, hconn⟩ :=
                      psn_scan { s with pendingSequenceNames := mapSet s.pendingSequenceNames reqId (String.mk ((List.range (min (readInt16BEt d 19).toNat (d.length - 21))).map (fun i => Char.ofNat (byteAt d (21 + i))))), currentSequenceNameId := none } s.statusRequestPending hs hc
                    refine ⟨⟨hsock, hconn, ?_⟩, fun hbx hgx => ⟨b2, ?_, hcb2⟩⟩
                    · simp only [List.singleton_append, scanOk, isStatusSend, isStatusAns,
                        isNameSend, isNameAns, CommandId.GetSequenceName,
                        CommandId.GetSeqTransportMode]
                      rw [hpend]
                      exact hstat
                    · simp only [List.singleton_append, scanOk, isStatusSend, isStatusAns,
                        isNameSend, isNameAns, CommandId.GetSequenceName]
                      exact hname
                · refine ⟨⟨hs, hc, ?_⟩, fun hbx hgx => ⟨false, ?_, by simp⟩⟩
                  · simp [scanOk, isStatusSend, isStatusAns, CommandId.GetSequenceName,
                      CommandId.GetSeqTransportMode]
                  · simp [scanOk, isNameSend, isNameAns, CommandId.GetSequenceName]
            · rw [if_neg h4]
              by_cases h5 : readInt16BEt d 17 = 65535 ∨ readInt16BEt d 17 = -1
              · rcases h5 with h5f | h5
                · exact absurd h5f (readInt16BEt_ne_ffff d 17)
                · rw [if_pos (Or.inr h5)]
                  simp only [h5]
                  unfold handleError
                  obtain ⟨e1, e2, e3, e4, e5⟩ :=
                    errStatusPart_scan s false s.statusRequestPending rfl hs hc
                  obtain ⟨⟨b2, hname, hcb2⟩, hstat2, hpend2, hsock2, hconn2⟩ :=
                    errNamePart_scan (handleErrorStatusPart s).1
                      (handleErrorStatusPart s).1.statusRequestPending e4 e5
                  refine ⟨⟨hsock2, hconn2, ?_⟩, fun hbx hgx => ⟨b2, ?_, hcb2⟩⟩
                  · simp [scanOk, isStatusSend, isStatusAns, isNameSend, isNameAns,
                      CommandId.GetSeqTransportMode, CommandId.GetSequenceName]
                    rw [scanOk_append, e1, Option.some_bind, hpend2]
                    exact hstat2
                  · simp [scanOk, isStatusSend, isStatusAns, isNameSend, isNameAns,
                      CommandId.GetSeqTransportMode, CommandId.GetSequenceName]
                    rw [scanOk_append, e2, Option.some_bind]
                    exact hname
              · rw [if_neg h5]
                have h5b : readInt16BEt d 17 ≠ -1 := fun hh => h5 (Or.inr hh)
                refine ⟨⟨hs, hc, ?_⟩, fun hbx hgx => ⟨b, ?_, hbx⟩⟩
                · simp [scanOk, isStatusSend, isStatusAns, beq_iff_eq, h1]
                · simp [scanOk, isNameSend, isNameAns, beq_iff_eq, h4, h5b]
    · have hnone : handleData s d = (s, []) := by rw [handleData_eq, if_neg hf]
      rw [hnone]
      simp only [hf]
      exact ⟨⟨hs, hc, by simp [scanOk]⟩, fun hbx hgx => ⟨b, by simp [scanOk], hbx⟩⟩

/-- Induction of `step_spec` over a whole run: the connectivity and
status-automaton conclusions hold for every event list, the name-automaton
conclusion under the `goodRunB` discipline. -/
theorem run_auto (evs : List PBEvent) :
    ∀ (s : PBState) (b : Bool), s.socket = true → s.connecting = false →
    ((run s evs).1.socket = true ∧ (run s evs).1.connecting = false ∧
      scanOk isStatusSend isStatusAns s.statusRequestPending (run s evs).2
        = some (run s evs).1.statusRequestPending) ∧
    ((b = true → s.currentSequenceNameId.isSome = true) → goodRunB s evs = true →
      ∃ b2, scanOk isNameSend isNameAns b (run s evs).2 = some b2 ∧
        (b2 = true → (run s evs).1.currentSequenceNameId.isSome = true)) := by
  induction evs with
  | nil =>
    intro s b hs hc
    exact ⟨⟨hs, hc, rfl⟩, fun hbx _ => ⟨b, rfl, hbx⟩⟩
  | cons e es ih =>
    intro s b hs hc
    obtain ⟨⟨hsock, hconn, hstat⟩, hnamefn⟩ := step_spec s e b hs hc
    obtain ⟨⟨ihsock, ihconn, ihs⟩, _⟩ := ih (step s e).1 false hsock hconn
    refine ⟨⟨ihsock, ihconn, ?_⟩, fun hbx hgx => ?_⟩
    · show scanOk isStatusSend isStatusAns s.statusRequestPending
        ((step s e).2 ++ (run (step s e).1 es).2) = _
      rw [scanOk_append, hstat, Option.some_bind]
      exact ihs
    · simp only [goodRunB, Bool.and_eq_true] at hgx
      obtain ⟨hg1, hg2⟩ := hgx
      obtain ⟨b2, hname, hb2⟩ := hnamefn hbx hg1
      obtain ⟨_, ihnamefn⟩ := ih (step s e).1 b2 hsock hconn
      obtain ⟨b3, ihn, ihb3⟩ := ihnamefn hb2 hg2
      refine ⟨b3, ?_, ihb3⟩
      show scanOk isNameSend isNameAns b
        ((step s e).2 ++ (run (step s e).1 es).2) = _
      rw [scanOk_append, hname, Option.some_bind]
      exact ihn

/-- C4 (counterexample): two `refreshSequences` calls before the server
answers, followed by the two FIFO-ordered "get sequence IDs" replies, make
the client send a second name request while the first one has not yet
received its reply: the run's trace contains two name-request sends and no
intervening name reply, so the single-outstanding-name-request automaton
reports a violation. -/
theorem c4_double_refresh_two_name_requests :
    scanOk isNameSend isNameAns pbInit.currentSequenceNameId.isSome
      (run pbInit evsC4cex).2 = none ∧
    ((run pbInit evsC4cex).2.filter isNameSend).length = 2 ∧
    (run pbInit evsC4cex).2.filter isNameAns = [] := by decide

/-- C4 (amended): on a connected Control Connection, under any
interleaving of timer ticks, `refreshSequences` calls and inbound replies,
at most one status request is ever outstanding: between any two
status-request sends a transport-mode reply is received.  The same holds
for name requests — between any two name-request sends a name reply or
error reply is received — provided no "get sequence IDs" reply is
processed while a name request is outstanding (equivalently,
`refreshSequences` is not called while a discovery exchange is in flight,
the `goodRunB` discipline); without that proviso two name requests can be
outstanding simultaneously. -/
theorem c4_single_outstanding_request (s : PBState) (evs : List PBEvent)
    (hs : s.socket = true) (hc : s.connecting = false) :
    (scanOk isStatusSend isStatusAns s.statusRequestPending (run s evs).2).isSome = true ∧
    (goodRunB s evs = true →
      (scanOk isNameSend isNameAns s.currentSequenceNameId.isSome (run s evs).2).isSome
        = true) := by
  obtain ⟨⟨_, _, h1⟩, hnamefn⟩ := run_auto evs s s.currentSequenceNameId.isSome hs hc
  refine ⟨by rw [h1]; rfl, fun hg => ?_⟩
  obtain ⟨b2, h2, _⟩ := hnamefn (fun h => h) hg
  rw [h2]
  rfl

/-- Witness for C4 (amended): a refresh followed by its discovery reply
satisfies the discipline, and both automata accept the trace. -/
theorem c4_single_outstanding_request_witness :
    (pbInit.socket = true ∧ pbInit.connecting = false ∧
      goodRunB pbInit [PBEvent.refreshEv, PBEvent.recvEv (idsReplyFrame [3, 7, 2])] = true) ∧
    (scanOk isStatusSend isStatusAns pbInit.statusRequestPending
        (run pbInit [PBEvent.refreshEv, PBEvent.recvEv (idsReplyFrame [3, 7, 2])]).2).isSome = true ∧
    (scanOk isNameSend isNameAns pbInit.currentSequenceNameId.isSome
        (run pbInit [PBEvent.refreshEv, PBEvent.recvEv (idsReplyFrame [3, 7, 2])]).2).isSome = true :=
  ⟨by decide,
   (c4_single_outstanding_request pbInit
     [PBEvent.refreshEv, PBEvent.recvEv (idsReplyFrame [3, 7, 2])] rfl rfl).1,
   (c4_single_outstanding_request pbInit
     [PBEvent.refreshEv, PBEvent.recvEv (idsReplyFrame [3, 7, 2])] rfl rfl).2 (by decide)⟩

end PB
